import Mathlib

/-!
Shallow embedding of the seat-booking Durable Object (src/src/index.ts).

The partition state is the `seats` SQL table: a list of rows in insertion
(rowid) order, each row holding a `seatId` (TEXT PRIMARY KEY) and a
nullable `occupant` (TEXT).  SQL bindings coming from JavaScript are
`Option String`: `some s` is a JS string, `none` is a JS `null`/`undefined`
binding (the runtime converts both to SQL NULL).  SQL `=` never matches a
NULL operand, which `sqlEqS`/`sqlEqO` encode.

Side effects are made explicit: every `sql.exec` and every WebSocket
`send` performed by an operation is recorded in an event trace (`Ev`),
and a thrown JavaScript exception is modelled by an `Option`al response
(`none` = the exception propagated out of the method).
-/

namespace SeatBooking

/-- One row of the `seats` table: `seatId TEXT PRIMARY KEY, occupant TEXT`. -/
structure Row where
  seatId : String
  occupant : Option String
deriving DecidableEq, Repr

/-- SQL comparison `col = ?` for the non-null TEXT column `seatId`:
a NULL binding matches nothing. -/
def sqlEqS (col : String) (binding : Option String) : Bool :=
  match binding with
  | some s => col == s
  | none => false

/-- SQL comparison `occupant = ?` for the nullable `occupant` column:
if either side is NULL the comparison is not true. -/
def sqlEqO (col binding : Option String) : Bool :=
  match col, binding with
  | some a, some b => a == b
  | _, _ => false

/-- Observable side effects of the Durable Object methods: the SQL
statements executed against the seats table and the WebSocket sends. -/
inductive Ev where
  | selectOccupant (seatId : Option String)
  | updateClear (occupant : Option String)
  | updateAssign (occupant seatId : Option String)
  | selectAll
  | send (ws : Nat) (payload : String)
deriving DecidableEq, Repr

/-- A WebSocket registered via `ctx.acceptWebSocket` (an element of
`ctx.getWebSockets()`).  `sendFails` says whether its `send` throws. -/
structure WS where
  id : Nat
  sendFails : Bool
deriving DecidableEq, Repr

/-- A JavaScript `Response`: status, body text, and the Content-Type
header when one is set explicitly. -/
structure Resp where
  status : Nat
  body : String
  contentType : Option String
deriving DecidableEq, Repr

/-- JSON string escaping of one character, as performed by
`JSON.stringify` on string values. -/
def escapeChar (c : Char) : String :=
  if c = '"' then "\\\""
  else if c = '\\' then "\\\\"
  else if c.toNat = 8 then "\\b"
  else if c.toNat = 12 then "\\f"
  else if c = '\n' then "\\n"
  else if c = '\r' then "\\r"
  else if c = '\t' then "\\t"
  else if c.toNat < 32 then
    "\\u00" ++ String.singleton (Nat.digitChar (c.toNat / 16))
      ++ String.singleton (Nat.digitChar (c.toNat % 16))
  else String.singleton c

/-- `JSON.stringify` of a JavaScript string value. -/
def jsonStr (s : String) : String :=
  "\"" ++ String.join (s.data.map escapeChar) ++ "\""

/-- `JSON.stringify` of a string-or-null value. -/
def jsonNullable : Option String → String
  | none => "null"
  | some s => jsonStr s

/-- Serialization of one row as pushed into `results` by `getSeats`:
`{ seatNumber: row.seatId, occupant: row.occupant }`. -/
def seatJson (r : Row) : String :=
  "\x7b\"seatNumber\":" ++ jsonStr r.seatId ++ ",\"occupant\":" ++ jsonNullable r.occupant ++ "\x7d"

/-- `getSeats()` (src lines 65-78): `SELECT seatId, occupant FROM seats`,
collect each row as `{seatNumber, occupant}`, and `JSON.stringify` the
array.  The result is a JSON array string. -/
def getSeats (seats : List Row) : String :=
  "[" ++ String.intercalate "," (seats.map seatJson) ++ "]"

/-- `SELECT occupant FROM seats WHERE seatId = ?` followed by taking the
first cursor row (`[...cursor][0]`, src lines 40-41): `none` when no row
matches (the JS `result` is `undefined`), `some occ` when the first
matching row has occupant `occ`. -/
def selectOccupant (seats : List Row) (seatId : Option String) : Option (Option String) :=
  (seats.find? (fun r => sqlEqS r.seatId seatId)).map Row.occupant

/-- `UPDATE seats SET occupant = null WHERE occupant = ?` (src line 51). -/
def clearOccupant (seats : List Row) (occupant : Option String) : List Row :=
  seats.map (fun r => if sqlEqO r.occupant occupant then ⟨r.seatId, none⟩ else r)

/-- `UPDATE seats SET occupant = ? WHERE seatId = ?` (src line 57). -/
def setOccupant (seats : List Row) (occupant seatId : Option String) : List Row :=
  seats.map (fun r => if sqlEqS r.seatId seatId then ⟨r.seatId, occupant⟩ else r)

/-- `broadcastSeats()` (src lines 91-93):
`this.ctx.getWebSockets().forEach((ws) => ws.send(this.getSeats()))`.
`getSeats` is evaluated inside the loop, so each iteration first runs the
full-snapshot SELECT (`Ev.selectAll`) and then sends.  There is no
try/catch: if a `send` throws, the remaining iterations do not run and
the exception propagates (second component `true`). -/
def broadcastSeats (seats : List Row) : List WS → List Ev × Bool
  | [] => ([], false)
  | w :: rest =>
    if w.sendFails then ([Ev.selectAll], true)
    else
      let b := broadcastSeats seats rest
      (Ev.selectAll :: Ev.send w.id (getSeats seats) :: b.1, b.2)

/-- JavaScript string coercion used by the template literal
`Seat $\x7bseatId\x7d booked successfully`. -/
def jsString : Option String → String
  | some s => s
  | none => "undefined"

/-- `assignSeat(seatId, occupant)` (src lines 38-62).  Returns the
response (`none` when an exception propagated out of the method), the
seats table afterwards, and the event trace. -/
def assignSeat (seats : List Row) (wss : List WS) (seatId occupant : Option String) :
    Option Resp × List Row × List Ev :=
  match selectOccupant seats seatId with
  | none =>
    (some ⟨400, "Seat not available", none⟩, seats, [Ev.selectOccupant seatId])
  | some (some _) =>
    (some ⟨400, "Seat not available", none⟩, seats, [Ev.selectOccupant seatId])
  | some none =>
    let seats2 := setOccupant (clearOccupant seats occupant) occupant seatId
    let b := broadcastSeats seats2 wss
    ((if b.2 then none
      else some ⟨200, "Seat " ++ jsString seatId ++ " booked successfully", none⟩),
     seats2,
     Ev.selectOccupant seatId :: Ev.updateClear occupant :: Ev.updateAssign occupant seatId :: b.1)

/-- The parsed JSON body of a `POST /book-seat` request, as destructured
by `const { seatNumber, name } = await request.json()`.  A missing field
is the JS value `undefined`, i.e. `none`. -/
structure Body where
  seatNumber : Option String
  name : Option String
deriving DecidableEq, Repr

/-- An inbound request as far as `fetch` inspects it: method, pathname,
the `Upgrade` header, and the body.  `body = none` models a body that is
not parseable JSON, so that `await request.json()` rejects. -/
structure Req where
  method : String
  pathname : String
  upgrade : Option String
  body : Option Body
deriving DecidableEq, Repr

/-- The `fetch` handler of the Durable Object (src lines 95-108).  The
first component is `none` when an exception propagated out of the
handler (there is no try/catch around `request.json()`). -/
def fetchImpl (seats : List Row) (wss : List WS) (req : Req) :
    Option Resp × List Row × List Ev :=
  if req.method == "GET" && req.pathname == "/seats" then
    (some ⟨200, jsonStr (getSeats seats), some "application/json"⟩, seats, [Ev.selectAll])
  else if req.method == "POST" && req.pathname == "/book-seat" then
    match req.body with
    | none => (none, seats, [])
    | some b => assignSeat seats wss b.seatNumber b.name
  else if req.upgrade == some "websocket" then
    (some ⟨101, "", none⟩, seats, [])
  else
    (some ⟨404, "Not found", none⟩, seats, [])

/-- Seat label `$\x7brow\x7d$\x7bString.fromCharCode(65 + col)\x7d`
(src line 31). -/
def seatNumber (row col : Nat) : String :=
  toString row ++ String.singleton (Char.ofNat (65 + col))

/-- The 60 seat labels in the insertion order of the seeding loops
(src lines 29-34): rows 1..10, columns A..F. -/
def seedSeatIds : List String :=
  (List.range 10).flatMap (fun r => (List.range 6).map (fun c => seatNumber (r + 1) c))

/-- The seats table contents right after a fresh seeding: every seeded
seat with a NULL occupant, in insertion order. -/
def seedRows : List Row :=
  seedSeatIds.map (fun sid => ⟨sid, none⟩)

/-- The durable storage visible to `initializeSeats`: the tables of the
SQLite database, in the order `PRAGMA table_list` reports them.  Only the
`seats` table has contents our model cares about. -/
structure Storage where
  tables : List (String × List Row)
deriving DecidableEq, Repr

/-- Contents of table `n`, if the table exists. -/
def getTable (st : Storage) (n : String) : Option (List Row) :=
  (st.tables.find? (fun t => t.1 == n)).map (fun t => t.2)

/-- Replace the contents of table `n`. -/
def setTable (st : Storage) (n : String) (rows : List Row) : Storage :=
  ⟨st.tables.map (fun t => if t.1 == n then (n, rows) else t)⟩

/-- `INSERT INTO seats VALUES (?, null)` (src line 32): appends a row,
or throws `UNIQUE constraint failed` when the seatId primary key is
already present.  A thrown error is the `some` message; the storage at
that point is returned unchanged (each INSERT autocommits). -/
def insertSeat (st : Storage) (sid : String) : Storage × Option String :=
  match getTable st "seats" with
  | none => (st, some "no such table: seats")
  | some rows =>
    if rows.any (fun r => r.seatId == sid) then
      (st, some "UNIQUE constraint failed: seats.seatId")
    else (setTable st "seats" (rows ++ [⟨sid, none⟩]), none)

/-- The seeding loop: insert each seat id in turn; the first thrown
insert aborts the loop and propagates, keeping the inserts so far. -/
def insertAll (st : Storage) : List String → Storage × Option String
  | [] => (st, none)
  | sid :: rest =>
    match insertSeat st sid with
    | (st1, none) => insertAll st1 rest
    | (st1, some e) => (st1, some e)

/-- `initializeSeats()` (src lines 12-35): read `PRAGMA table_list`, and
return early iff the FIRST listed table is named `seats`
(`[...cursor][0].name === 'seats'`).  Otherwise `CREATE TABLE IF NOT
EXISTS seats` (a no-op when the table exists) and run the seeding loop.
The `some` message is an exception propagating out of the method
(including the TypeError when the table list is empty, since
`[...cursor][0]` is then `undefined`). -/
def initializeSeats (st : Storage) : Storage × Option String :=
  match st.tables.head? with
  | none => (st, some "TypeError: cannot read properties of undefined")
  | some t =>
    if t.1 == "seats" then (st, none)
    else
      let st1 := if (getTable st "seats").isSome then st else ⟨st.tables ++ [("seats", [])]⟩
      insertAll st1 seedSeatIds

/-- Seat-id (primary key) uniqueness of the seats table. -/
def seatIdsDistinct (seats : List Row) : Prop :=
  (seats.map Row.seatId).Nodup

instance (seats : List Row) : Decidable (seatIdsDistinct seats) :=
  List.nodupDecidable _

/-- No two distinct seats hold the same non-empty occupant value. -/
def occupantUnique (seats : List Row) : Prop :=
  seats.Pairwise (fun r s => r.occupant = none ∨ r.occupant ≠ s.occupant)

/-- One booking request of a run: the state transition of
`assignSeat`, ignoring the response. -/
def bookStep (wss : List WS) (seats : List Row) (req : Option String × Option String) :
    List Row :=
  (assignSeat seats wss req.1 req.2).2.1

/-- The seats table after a sequence of bookings applied to the freshly
seeded table.  The state after any prefix of `reqs` is `runBookings` of
that prefix, so quantifying over `reqs` covers every intermediate state. -/
def runBookings (wss : List WS) (reqs : List (Option String × Option String)) : List Row :=
  reqs.foldl (bookStep wss) seedRows

/-! ### Helper lemmas -/

/-- The combined effect on one row of the clear-then-assign pair of
UPDATEs inside a successful `assignSeat`. -/
def clearThenAssign (occupant seatId : Option String) (r : Row) : Row :=
  if sqlEqS r.seatId seatId then ⟨r.seatId, occupant⟩
  else if sqlEqO r.occupant occupant then ⟨r.seatId, none⟩
  else r

theorem setOccupant_clearOccupant (seats : List Row) (occupant seatId : Option String) :
    setOccupant (clearOccupant seats occupant) occupant seatId =
      seats.map (clearThenAssign occupant seatId) := by
  unfold setOccupant clearOccupant clearThenAssign
  rw [List.map_map]
  apply List.map_congr_left
  intro r _
  by_cases h1 : sqlEqO r.occupant occupant <;> by_cases h2 : sqlEqS r.seatId seatId <;>
    simp [h1, h2, Function.comp]

theorem clearThenAssign_seatId (occupant seatId : Option String) (r : Row) :
    (clearThenAssign occupant seatId r).seatId = r.seatId := by
  unfold clearThenAssign
  split
  · rfl
  · split
    · rfl
    · rfl

theorem sqlEqS_both {a b : String} {binding : Option String}
    (ha : sqlEqS a binding = true) (hb : sqlEqS b binding = true) : a = b := by
  cases binding with
  | none => simp [sqlEqS] at ha
  | some s =>
    simp [sqlEqS] at ha hb
    rw [ha, hb]

theorem sqlEqO_true {a b : Option String} (h : sqlEqO a b = true) : a = b := by
  cases a with
  | none => simp [sqlEqO] at h
  | some x =>
    cases b with
    | none => simp [sqlEqO] at h
    | some y =>
      simp [sqlEqO] at h
      rw [h]

theorem sqlEqO_false {a b : Option String} (h : sqlEqO a b = false) :
    a = none ∨ a ≠ b := by
  cases a with
  | none => exact Or.inl rfl
  | some x =>
    cases b with
    | none => exact Or.inr (by simp)
    | some y =>
      simp [sqlEqO] at h
      exact Or.inr (by simp [h])

theorem clearThenAssign_occupant (occupant seatId : Option String) (r : Row) :
    (clearThenAssign occupant seatId r).occupant =
      if sqlEqS r.seatId seatId then occupant
      else if sqlEqO r.occupant occupant then none
      else r.occupant := by
  unfold clearThenAssign
  split
  · rfl
  · split
    · rfl
    · rfl

theorem clearThenAssign_pres (occupant seatId : Option String) (r s : Row)
    (h1 : r.occupant = none ∨ r.occupant ≠ s.occupant) (h2 : r.seatId ≠ s.seatId) :
    (clearThenAssign occupant seatId r).occupant = none ∨
      (clearThenAssign occupant seatId r).occupant ≠ (clearThenAssign occupant seatId s).occupant := by
  rw [clearThenAssign_occupant, clearThenAssign_occupant]
  by_cases ha : sqlEqS r.seatId seatId = true
  · rw [if_pos ha]
    have hc : ¬ sqlEqS s.seatId seatId = true := fun hcon => h2 (sqlEqS_both ha hcon)
    rw [if_neg hc]
    cases occupant with
    | none => exact Or.inl rfl
    | some o =>
      refine Or.inr ?_
      by_cases hd : sqlEqO s.occupant (some o) = true
      · rw [if_pos hd]
        simp
      · rw [if_neg hd]
        rcases sqlEqO_false (Bool.not_eq_true _ ▸ hd) with hs | hs
        · simp [hs]
        · exact fun hcon => hs hcon.symm
  · rw [if_neg ha]
    by_cases hb : sqlEqO r.occupant occupant = true
    · rw [if_pos hb]
      exact Or.inl rfl
    · rw [if_neg hb]
      cases hro : r.occupant with
      | none => exact Or.inl rfl
      | some x =>
        refine Or.inr ?_
        have hbx : sqlEqO (some x) occupant = false := by
          rw [← hro]
          exact Bool.not_eq_true _ ▸ hb
        by_cases hc : sqlEqS s.seatId seatId = true
        · rw [if_pos hc]
          rcases sqlEqO_false hbx with hcon | hne
          · exact Option.noConfusion hcon
          · exact hne
        · rw [if_neg hc]
          by_cases hd : sqlEqO s.occupant occupant = true
          · rw [if_pos hd]
            simp
          · rw [if_neg hd]
            rcases h1 with h1 | h1
            · rw [hro] at h1
              exact Option.noConfusion h1
            · rw [← hro]
              exact h1

/-- The state transition of a successful booking preserves primary-key
distinctness of the seats table. -/
theorem seatIdsDistinct_clearThenAssign {seats : List Row} (occupant seatId : Option String)
    (h : seatIdsDistinct seats) :
    seatIdsDistinct (seats.map (clearThenAssign occupant seatId)) := by
  unfold seatIdsDistinct List.Nodup at h ⊢
  rw [List.map_map]
  rw [List.pairwise_map] at h ⊢
  exact h.imp (by
    intro a b hab
    simpa [Function.comp, clearThenAssign_seatId] using hab)

/-- The state transition of a successful booking preserves occupant
uniqueness, given primary-key distinctness. -/
theorem occupantUnique_clearThenAssign {seats : List Row} (occupant seatId : Option String)
    (hnd : seatIdsDistinct seats) (h : occupantUnique seats) :
    occupantUnique (seats.map (clearThenAssign occupant seatId)) := by
  unfold occupantUnique at h ⊢
  unfold seatIdsDistinct List.Nodup at hnd
  rw [List.pairwise_map] at hnd
  have hand := h.and hnd
  exact hand.map (clearThenAssign occupant seatId) (by
    intro a b hab
    exact clearThenAssign_pres occupant seatId a b hab.1 hab.2)

/-- Looking up a seat id that no row carries finds no row. -/
theorem selectOccupant_eq_none {seats : List Row} {sid : String}
    (h : ∀ r ∈ seats, r.seatId ≠ sid) : selectOccupant seats (some sid) = none := by
  unfold selectOccupant
  rw [List.find?_eq_none.mpr]
  · rfl
  · intro r hr
    simp [sqlEqS]
    exact h r hr

/-- A NULL seat-id binding (a missing `seatNumber` field) matches no row. -/
theorem selectOccupant_null (seats : List Row) : selectOccupant seats none = none := by
  unfold selectOccupant
  rw [List.find?_eq_none.mpr]
  · rfl
  · intro r _
    simp [sqlEqS]

theorem find?_seatId_unique {seats : List Row} (hnd : seatIdsDistinct seats) {r : Row}
    (hr : r ∈ seats) :
    seats.find? (fun q => sqlEqS q.seatId (some r.seatId)) = some r := by
  induction seats with
  | nil => cases hr
  | cons a t ih =>
    have hnd2 := (List.nodup_cons.mp hnd)
    by_cases hq : sqlEqS a.seatId (some r.seatId) = true
    · have heq : a.seatId = r.seatId := by simpa [sqlEqS] using hq
      rcases List.mem_cons.mp hr with rfl | hrt
      · exact List.find?_cons_of_pos _ hq
      · exact absurd (heq ▸ List.mem_map_of_mem Row.seatId hrt) hnd2.1
    · have hrt : r ∈ t := by
        rcases List.mem_cons.mp hr with rfl | hrt
        · exact absurd (by simp [sqlEqS]) hq
        · exact hrt
      rw [Bool.not_eq_true] at hq
      simp only [List.find?, hq]
      exact ih hnd2.2 hrt

/-- With distinct seat ids, looking up a row's seat id finds that row. -/
theorem selectOccupant_unique {seats : List Row} (hnd : seatIdsDistinct seats) {r : Row}
    (hr : r ∈ seats) : selectOccupant seats (some r.seatId) = some r.occupant := by
  unfold selectOccupant
  rw [find?_seatId_unique hnd hr]
  rfl

/-- When no registered WebSocket throws from `send`, the broadcast loop
runs the snapshot query once per subscriber and delivers the identical
payload to each, in registration order. -/
theorem broadcastSeats_ok {seats : List Row} {wss : List WS}
    (h : ∀ w ∈ wss, w.sendFails = false) :
    broadcastSeats seats wss =
      (wss.flatMap (fun w => [Ev.selectAll, Ev.send w.id (getSeats seats)]), false) := by
  induction wss with
  | nil => rfl
  | cons w t ih =>
    unfold broadcastSeats
    rw [h w (List.mem_cons_self _ _)]
    rw [ih (fun v hv => h v (List.mem_cons_of_mem _ hv))]
    simp

/-- If the first throwing `send` is reached, every earlier subscriber has
been delivered to, the failing iteration has run its snapshot query, and
the loop aborts with the exception propagating. -/
theorem broadcastSeats_split {seats : List Row} {wss1 : List WS} {w : WS} (wss2 : List WS)
    (h1 : ∀ v ∈ wss1, v.sendFails = false) (hw : w.sendFails = true) :
    broadcastSeats seats (wss1 ++ w :: wss2) =
      (wss1.flatMap (fun v => [Ev.selectAll, Ev.send v.id (getSeats seats)]) ++ [Ev.selectAll],
       true) := by
  induction wss1 with
  | nil =>
    rw [List.nil_append]
    unfold broadcastSeats
    rw [hw]
    simp
  | cons v t ih =>
    have hv := h1 v (List.mem_cons_self _ _)
    have ih2 := ih (fun u hu => h1 u (List.mem_cons_of_mem _ hu))
    rw [List.cons_append]
    unfold broadcastSeats
    rw [hv, ih2]
    simp

/-- Both failure branches of `assignSeat` return the same 400 response
after only the availability SELECT: no UPDATE runs, no send happens, and
the table is unchanged. -/
theorem assignSeat_fail {seats : List Row} {seatId : Option String} (wss : List WS)
    (occupant : Option String)
    (h : selectOccupant seats seatId = none ∨
      ∃ o : String, selectOccupant seats seatId = some (some o)) :
    assignSeat seats wss seatId occupant =
      (some ⟨400, "Seat not available", none⟩, seats, [Ev.selectOccupant seatId]) := by
  unfold assignSeat
  rcases h with h | ⟨o, h⟩ <;> rw [h]

/-- The success branch of `assignSeat`, spelled with the combined
row transformer. -/
theorem assignSeat_success {seats : List Row} {seatId : Option String} (wss : List WS)
    (occupant : Option String) (h : selectOccupant seats seatId = some none) :
    assignSeat seats wss seatId occupant =
      ((if (broadcastSeats (seats.map (clearThenAssign occupant seatId)) wss).2 then none
        else some ⟨200, "Seat " ++ jsString seatId ++ " booked successfully", none⟩),
       seats.map (clearThenAssign occupant seatId),
       Ev.selectOccupant seatId :: Ev.updateClear occupant ::
         Ev.updateAssign occupant seatId ::
         (broadcastSeats (seats.map (clearThenAssign occupant seatId)) wss).1) := by
  unfold assignSeat
  rw [h, setOccupant_clearOccupant]

/-- The seats table `assignSeat` leaves behind: unchanged on failure, or
the clear-then-assign image on success. -/
theorem assignSeat_state (seats : List Row) (wss : List WS) (seatId occupant : Option String) :
    (assignSeat seats wss seatId occupant).2.1 = seats ∨
      (assignSeat seats wss seatId occupant).2.1 =
        seats.map (clearThenAssign occupant seatId) := by
  unfold assignSeat
  cases h : selectOccupant seats seatId with
  | none => exact Or.inl rfl
  | some o =>
    cases o with
    | some x => exact Or.inl rfl
    | none =>
      right
      simp only
      rw [setOccupant_clearOccupant]

/-- Every freshly seeded row has a NULL occupant. -/
theorem seedRows_occupant_none : ∀ r ∈ seedRows, r.occupant = none := by
  intro r hr
  simp only [seedRows, List.mem_map] at hr
  obtain ⟨sid, _, rfl⟩ := hr
  rfl

/-- A table whose rows all have NULL occupants trivially satisfies
occupant uniqueness. -/
theorem occupantUnique_of_none {seats : List Row} (h : ∀ r ∈ seats, r.occupant = none) :
    occupantUnique seats := by
  unfold occupantUnique
  induction seats with
  | nil => exact List.Pairwise.nil
  | cons a t ih =>
    refine List.Pairwise.cons ?_ (ih fun r hr => h r (List.mem_cons_of_mem _ hr))
    intro b _
    exact Or.inl (h a (List.mem_cons_self _ _))

/-- The 60 seeded seat ids are pairwise distinct (the primary key holds
on the fresh table). -/
theorem seatIdsDistinct_seedRows : seatIdsDistinct seedRows := by decide

/-- One booking step preserves both table invariants. -/
theorem bookStep_pres {seats : List Row} (wss : List WS) (req : Option String × Option String)
    (hnd : seatIdsDistinct seats) (h : occupantUnique seats) :
    seatIdsDistinct (bookStep wss seats req) ∧ occupantUnique (bookStep wss seats req) := by
  unfold bookStep
  rcases assignSeat_state seats wss req.1 req.2 with hs | hs <;> rw [hs]
  · exact ⟨hnd, h⟩
  · exact ⟨seatIdsDistinct_clearThenAssign _ _ hnd,
      occupantUnique_clearThenAssign _ _ hnd h⟩

/-- With the primary key intact, two rows of the table with the same
seat id are the same row. -/
theorem seatId_inj {seats : List Row} (hnd : seatIdsDistinct seats) {r s : Row}
    (hr : r ∈ seats) (hs : s ∈ seats) (h : r.seatId = s.seatId) : r = s :=
  List.inj_on_of_nodup_map hnd hr hs h

/-- Recognizer for send events. -/
def isSend : Ev → Bool
  | Ev.send _ _ => true
  | _ => false

/-- Recognizer for the full-snapshot SELECT run by `getSeats`. -/
def isSelectAll : Ev → Bool
  | Ev.selectAll => true
  | _ => false

theorem flatMap_trace_filter (seats : List Row) (wss : List WS) :
    (wss.flatMap (fun w => [Ev.selectAll, Ev.send w.id (getSeats seats)])).filter isSend =
      wss.map (fun w => Ev.send w.id (getSeats seats)) := by
  induction wss with
  | nil => rfl
  | cons w t ih => simp [List.filter_cons, isSend, ih]

theorem flatMap_trace_countP (seats : List Row) (wss : List WS) :
    (wss.flatMap (fun w => [Ev.selectAll, Ev.send w.id (getSeats seats)])).countP isSelectAll =
      wss.length := by
  induction wss with
  | nil => rfl
  | cons w t ih => simp [List.countP_cons, isSelectAll, ih]

/-! ### The claims -/

/-- Claim C1: occupant uniqueness is an invariant.  For every sequence of
bookings applied to the freshly seeded table (and any set of registered
subscribers), the resulting table never has two distinct seats holding
the same non-empty occupant value.  Since the state after any prefix of
`reqs` is `runBookings` of that prefix, quantifying over `reqs` covers
every intermediate state of every booking sequence. -/
theorem occupant_uniqueness_invariant (wss : List WS)
    (reqs : List (Option String × Option String)) :
    occupantUnique (runBookings wss reqs) := by
  unfold runBookings
  have key : ∀ s : List Row, seatIdsDistinct s → occupantUnique s →
      seatIdsDistinct (reqs.foldl (bookStep wss) s) ∧
        occupantUnique (reqs.foldl (bookStep wss) s) := by
    induction reqs with
    | nil => exact fun s h1 h2 => ⟨h1, h2⟩
    | cons r t ih =>
      intro s h1 h2
      have hstep := bookStep_pres wss r h1 h2
      exact ih _ hstep.1 hstep.2
  exact (key seedRows seatIdsDistinct_seedRows
    (occupantUnique_of_none seedRows_occupant_none)).2

/-- Claim C3: booking a seat whose current occupant is non-empty is
rejected with the 400 "Seat not available" response, leaving the table
untouched and broadcasting nothing — for every requesting occupant
`name`, including the occupant `o` already holding the seat (no
special-case no-op success exists; the witness instantiates
`name := o`). -/
theorem self_rebooking_rejected (seats : List Row) (wss : List WS) (sid name o : String)
    (h : selectOccupant seats (some sid) = some (some o)) :
    assignSeat seats wss (some sid) (some name) =
      (some ⟨400, "Seat not available", none⟩, seats, [Ev.selectOccupant (some sid)]) :=
  assignSeat_fail wss (some name) (Or.inr ⟨o, h⟩)

theorem self_rebooking_rejected_witness :
    selectOccupant [(⟨"1A", some "Alice"⟩ : Row)] (some "1A") = some (some "Alice") ∧
      assignSeat [(⟨"1A", some "Alice"⟩ : Row)] [⟨0, false⟩] (some "1A") (some "Alice") =
        (some ⟨400, "Seat not available", none⟩, [(⟨"1A", some "Alice"⟩ : Row)],
         [Ev.selectOccupant (some "1A")]) :=
  ⟨by decide, self_rebooking_rejected _ _ _ "Alice" "Alice" (by decide)⟩

/-- Claim C7: booking a seat id that no seat of the table carries (for
the witness, seat 9Z against the seeded layout) fails with the 400
response and leaves the seat table unchanged, with no UPDATE and no
send executed. -/
theorem nonexistent_seat_rejected (seats : List Row) (wss : List WS) (sid name : String)
    (h : ∀ r ∈ seats, r.seatId ≠ sid) :
    assignSeat seats wss (some sid) (some name) =
      (some ⟨400, "Seat not available", none⟩, seats, [Ev.selectOccupant (some sid)]) :=
  assignSeat_fail wss (some name) (Or.inl (selectOccupant_eq_none h))

theorem nonexistent_seat_rejected_witness :
    (∀ r ∈ seedRows, r.seatId ≠ "9Z") ∧
      assignSeat seedRows [⟨0, false⟩] (some "9Z") (some "Alice") =
        (some ⟨400, "Seat not available", none⟩, seedRows, [Ev.selectOccupant (some "9Z")]) :=
  ⟨by decide, nonexistent_seat_rejected _ _ _ "Alice" (by decide)⟩

/-- Claim C10: every failed booking — seat not found or seat occupied —
returns the same `400` response with body "Seat not available" (the two
causes are indistinguishable to the caller), leaves every seat
unchanged, and sends nothing to any subscriber: the trace holds only the
availability SELECT, no UPDATE and no send. -/
theorem failed_booking_atomic_silent (seats : List Row) (wss : List WS)
    (seatId occupant : Option String)
    (h : selectOccupant seats seatId = none ∨
      ∃ o : String, selectOccupant seats seatId = some (some o)) :
    assignSeat seats wss seatId occupant =
      (some ⟨400, "Seat not available", none⟩, seats, [Ev.selectOccupant seatId]) :=
  assignSeat_fail wss occupant h

theorem failed_booking_atomic_silent_witness :
    (selectOccupant [(⟨"1A", some "Bob"⟩ : Row)] (some "1A") = none ∨
      ∃ o : String, selectOccupant [(⟨"1A", some "Bob"⟩ : Row)] (some "1A") = some (some o)) ∧
      assignSeat [(⟨"1A", some "Bob"⟩ : Row)] [⟨0, false⟩] (some "1A") (some "Alice") =
        (some ⟨400, "Seat not available", none⟩, [(⟨"1A", some "Bob"⟩ : Row)],
         [Ev.selectOccupant (some "1A")]) :=
  ⟨Or.inr ⟨"Bob", by decide⟩,
   failed_booking_atomic_silent _ _ _ _ (Or.inr ⟨"Bob", by decide⟩)⟩

/-- Claim C2: re-seating.  If occupant `X` holds seat `A`, seat `B`
exists and is empty, and no subscriber's send throws, then booking `X`
into `B` succeeds with the 200 confirmation, the resulting table has
seat `A` empty and seat `B` held by `X`, and the single broadcast pushes
to every subscriber exactly one payload: the snapshot reflecting both
changes. -/
theorem reseating_postcondition (seats : List Row) (wss : List WS) (X A B : String)
    (hnd : seatIdsDistinct seats)
    (hA : (⟨A, some X⟩ : Row) ∈ seats)
    (hB : (⟨B, none⟩ : Row) ∈ seats)
    (hok : ∀ w ∈ wss, w.sendFails = false) :
    assignSeat seats wss (some B) (some X) =
      (some ⟨200, "Seat " ++ B ++ " booked successfully", none⟩,
       seats.map (clearThenAssign (some X) (some B)),
       Ev.selectOccupant (some B) :: Ev.updateClear (some X) ::
         Ev.updateAssign (some X) (some B) ::
         wss.flatMap (fun w => [Ev.selectAll,
           Ev.send w.id (getSeats (seats.map (clearThenAssign (some X) (some B))))]))
    ∧ selectOccupant (seats.map (clearThenAssign (some X) (some B))) (some A) = some none
    ∧ selectOccupant (seats.map (clearThenAssign (some X) (some B))) (some B) =
        some (some X) := by
  have hAB : A ≠ B := by
    intro hcon
    have : (⟨A, some X⟩ : Row) = ⟨B, none⟩ := seatId_inj hnd hA hB hcon
    exact Option.noConfusion (congrArg Row.occupant this)
  have hselB : selectOccupant seats (some B) = some none := selectOccupant_unique hnd hB
  have hgA : clearThenAssign (some X) (some B) ⟨A, some X⟩ = ⟨A, none⟩ := by
    unfold clearThenAssign
    simp [sqlEqS, sqlEqO, hAB]
  have hgB : clearThenAssign (some X) (some B) ⟨B, none⟩ = ⟨B, some X⟩ := by
    unfold clearThenAssign
    simp [sqlEqS]
  have hndm := seatIdsDistinct_clearThenAssign (some X) (some B) hnd
  refine ⟨?_, ?_, ?_⟩
  · rw [assignSeat_success wss (some X) hselB, broadcastSeats_ok hok]
    simp [jsString]
  · have hm : (⟨A, none⟩ : Row) ∈ seats.map (clearThenAssign (some X) (some B)) := by
      rw [← hgA]
      exact List.mem_map_of_mem _ hA
    exact selectOccupant_unique hndm hm
  · have hm : (⟨B, some X⟩ : Row) ∈ seats.map (clearThenAssign (some X) (some B)) := by
      rw [← hgB]
      exact List.mem_map_of_mem _ hB
    exact selectOccupant_unique hndm hm

theorem reseating_postcondition_witness :
    seatIdsDistinct [(⟨"1A", some "Alice"⟩ : Row), ⟨"2A", none⟩] ∧
      (⟨"1A", some "Alice"⟩ : Row) ∈ [(⟨"1A", some "Alice"⟩ : Row), ⟨"2A", none⟩] ∧
      (⟨"2A", none⟩ : Row) ∈ [(⟨"1A", some "Alice"⟩ : Row), ⟨"2A", none⟩] ∧
      (∀ w ∈ [(⟨0, false⟩ : WS)], w.sendFails = false) ∧
      (assignSeat [(⟨"1A", some "Alice"⟩ : Row), ⟨"2A", none⟩] [(⟨0, false⟩ : WS)]
          (some "2A") (some "Alice") =
        (some ⟨200, "Seat " ++ "2A" ++ " booked successfully", none⟩,
         [(⟨"1A", some "Alice"⟩ : Row), ⟨"2A", none⟩].map
           (clearThenAssign (some "Alice") (some "2A")),
         Ev.selectOccupant (some "2A") :: Ev.updateClear (some "Alice") ::
           Ev.updateAssign (some "Alice") (some "2A") ::
           [(⟨0, false⟩ : WS)].flatMap (fun w => [Ev.selectAll,
             Ev.send w.id (getSeats ([(⟨"1A", some "Alice"⟩ : Row), ⟨"2A", none⟩].map
               (clearThenAssign (some "Alice") (some "2A"))))]))
      ∧ selectOccupant ([(⟨"1A", some "Alice"⟩ : Row), ⟨"2A", none⟩].map
          (clearThenAssign (some "Alice") (some "2A"))) (some "1A") = some none
      ∧ selectOccupant ([(⟨"1A", some "Alice"⟩ : Row), ⟨"2A", none⟩].map
          (clearThenAssign (some "Alice") (some "2A"))) (some "2A") = some (some "Alice")) :=
  ⟨by decide, by decide, by decide, by decide,
   reseating_postcondition _ _ "Alice" "1A" "2A" (by decide) (by decide) (by decide)
     (by decide)⟩

/-- Claim C4 counterexample: the claim says the broadcast computes and
serializes the snapshot once per broadcast.  In the code, `getSeats()`
is evaluated inside the `forEach` callback, so with two registered
subscribers the full-snapshot query (and its serialization) runs twice,
not once. -/
theorem broadcast_single_snapshot_counterexample :
    ¬ ((broadcastSeats [(⟨"1A", none⟩ : Row)]
        [(⟨0, false⟩ : WS), ⟨1, false⟩]).1.countP isSelectAll = 1) := by
  decide

/-- Claim C4 as amended: the broadcast recomputes and reserializes the
snapshot once per registered subscriber (the snapshot query runs
`wss.length` times), but since no state change can interleave with the
synchronous loop every subscriber receives exactly one push, all with
the identical payload `getSeats seats`, provided no send throws. -/
theorem broadcast_per_subscriber (seats : List Row) (wss : List WS)
    (hok : ∀ w ∈ wss, w.sendFails = false) :
    (broadcastSeats seats wss).1.filter isSend =
        wss.map (fun w => Ev.send w.id (getSeats seats)) ∧
      (broadcastSeats seats wss).1.countP isSelectAll = wss.length ∧
      (broadcastSeats seats wss).2 = false := by
  rw [broadcastSeats_ok hok]
  exact ⟨flatMap_trace_filter seats wss, flatMap_trace_countP seats wss, rfl⟩

theorem broadcast_per_subscriber_witness :
    (∀ w ∈ [(⟨0, false⟩ : WS), ⟨1, false⟩], w.sendFails = false) ∧
      ((broadcastSeats [(⟨"1A", some "Alice"⟩ : Row)]
          [(⟨0, false⟩ : WS), ⟨1, false⟩]).1.filter isSend =
        [(⟨0, false⟩ : WS), ⟨1, false⟩].map
          (fun w => Ev.send w.id (getSeats [(⟨"1A", some "Alice"⟩ : Row)])) ∧
      (broadcastSeats [(⟨"1A", some "Alice"⟩ : Row)]
          [(⟨0, false⟩ : WS), ⟨1, false⟩]).1.countP isSelectAll = 2 ∧
      (broadcastSeats [(⟨"1A", some "Alice"⟩ : Row)]
          [(⟨0, false⟩ : WS), ⟨1, false⟩]).2 = false) :=
  ⟨by decide, broadcast_per_subscriber _ [(⟨0, false⟩ : WS), ⟨1, false⟩] (by decide)⟩

/-- Claim C9 counterexample: the claim says that when one subscriber's
send throws, every other subscriber is still delivered to and the
booking does not fail.  In the code the `forEach` has no try/catch:
with subscribers `[ws 0 (throwing), ws 1]`, booking the free seat 1A
leaves ws 1 with no send at all and the exception propagates out of
`assignSeat` (no response is returned). -/
theorem broadcast_failure_isolation_counterexample :
    (assignSeat [(⟨"1A", none⟩ : Row)] [(⟨0, true⟩ : WS), ⟨1, false⟩]
        (some "1A") (some "Alice")).1 = none ∧
      ∀ p : String, Ev.send 1 p ∉
        (assignSeat [(⟨"1A", none⟩ : Row)] [(⟨0, true⟩ : WS), ⟨1, false⟩]
          (some "1A") (some "Alice")).2.2 := by
  refine ⟨rfl, ?_⟩
  intro p hp
  have hred : (assignSeat [(⟨"1A", none⟩ : Row)] [(⟨0, true⟩ : WS), ⟨1, false⟩]
      (some "1A") (some "Alice")).2.2 =
      [Ev.selectOccupant (some "1A"), Ev.updateClear (some "Alice"),
       Ev.updateAssign (some "Alice") (some "1A"), Ev.selectAll] := by decide
  rw [hred] at hp
  simp at hp

/-- Claim C9 as amended: delivery is not failure-isolated.  When the
booking succeeds and the subscriber list is `wss1 ++ w :: wss2` with
every send before `w` succeeding and `w`'s send throwing, the
subscribers in `wss1` are delivered to, the failing iteration still runs
its snapshot query, no subscriber in `wss2` receives anything, and the
exception propagates out of the broadcast and fails the booking response
(the seat updates themselves persist). -/
theorem broadcast_failure_propagates (seats : List Row) (seatId occupant : Option String)
    (wss1 : List WS) (w : WS) (wss2 : List WS)
    (hsel : selectOccupant seats seatId = some none)
    (h1 : ∀ v ∈ wss1, v.sendFails = false) (hw : w.sendFails = true) :
    assignSeat seats (wss1 ++ w :: wss2) seatId occupant =
      (none,
       seats.map (clearThenAssign occupant seatId),
       Ev.selectOccupant seatId :: Ev.updateClear occupant ::
         Ev.updateAssign occupant seatId ::
         (wss1.flatMap (fun v => [Ev.selectAll,
            Ev.send v.id (getSeats (seats.map (clearThenAssign occupant seatId)))]) ++
          [Ev.selectAll])) := by
  rw [assignSeat_success _ occupant hsel, broadcastSeats_split wss2 h1 hw]
  simp

theorem broadcast_failure_propagates_witness :
    selectOccupant [(⟨"1A", none⟩ : Row)] (some "1A") = some none ∧
      (∀ v ∈ [(⟨0, false⟩ : WS)], v.sendFails = false) ∧
      (⟨1, true⟩ : WS).sendFails = true ∧
      assignSeat [(⟨"1A", none⟩ : Row)] ([(⟨0, false⟩ : WS)] ++ (⟨1, true⟩ : WS) :: [⟨2, false⟩])
          (some "1A") (some "Alice") =
        (none,
         [(⟨"1A", none⟩ : Row)].map (clearThenAssign (some "Alice") (some "1A")),
         Ev.selectOccupant (some "1A") :: Ev.updateClear (some "Alice") ::
           Ev.updateAssign (some "Alice") (some "1A") ::
           ([(⟨0, false⟩ : WS)].flatMap (fun v => [Ev.selectAll,
              Ev.send v.id (getSeats ([(⟨"1A", none⟩ : Row)].map
                (clearThenAssign (some "Alice") (some "1A"))))]) ++
            [Ev.selectAll])) :=
  ⟨by decide, by decide, by decide,
   broadcast_failure_propagates _ _ (some "Alice") [(⟨0, false⟩ : WS)] ⟨1, true⟩ [⟨2, false⟩]
     (by decide) (by decide) (by decide)⟩

/-- A small concrete partition state for exercising `GET /seats`. -/
def c5Seats : List Row := [⟨"1A", some "Alice"⟩, ⟨"1B", none⟩]

set_option maxRecDepth 20000 in
/-- Claim C5: the `GET /seats` handler wraps `getSeats()` — which is
already a serialized JSON array — in a second `JSON.stringify`, so the
response body is a JSON-quoted string literal, not the JSON array the
claim (and the `Content-Type: application/json` header, and the
websocket broadcast path, which sends `getSeats()` unwrapped) promises.
This theorem evaluates the handler at a concrete state and shows the
body is the double-encoded `jsonStr (getSeats ...)`, which differs from
the array encoding `getSeats ...`. -/
theorem get_seats_double_encoded :
    fetchImpl c5Seats [] ⟨"GET", "/seats", none, none⟩ =
      (some ⟨200, jsonStr (getSeats c5Seats), some "application/json"⟩, c5Seats,
       [Ev.selectAll]) ∧
      jsonStr (getSeats c5Seats) ≠ getSeats c5Seats := by
  refine ⟨rfl, ?_⟩
  decide

set_option maxRecDepth 100000 in
/-- Supporting fact: seeding a fresh storage (whose table list shows
only the schema table) creates and fills the seats table with exactly
`seedRows`, without an error.  This justifies using `seedRows` as "the
freshly seeded partition" in the other theorems. -/
theorem initializeSeats_fresh :
    initializeSeats ⟨[("sqlite_schema", [])]⟩ =
      (⟨[("sqlite_schema", []), ("seats", seedRows)]⟩, none) := by
  decide

set_option maxRecDepth 40000 in
/-- Claim C6: the existence check reads only the FIRST row of
`PRAGMA table_list` (`[...cursor][0].name === 'seats'`), contradicting
the code's own intent ("Check if a table exists").  On a storage whose
table list starts with another table (here `_cf_KV`) while `seats`
exists and is fully seeded, a second `initializeSeats()` misses the
existing table, re-runs the seeding loop, and the very first INSERT
(seat 1A) throws a UNIQUE-constraint error that propagates out of the
method — instead of the clean no-op the claim requires for every table
set.  (The row contents survive only because that first INSERT aborts
the loop immediately.)  When `seats` happens to be listed first, the
second call is the claimed no-op. -/
theorem seeding_check_misses_table :
    initializeSeats ⟨[("_cf_KV", []), ("seats", seedRows)]⟩ =
      (⟨[("_cf_KV", []), ("seats", seedRows)]⟩,
       some "UNIQUE constraint failed: seats.seatId") ∧
      initializeSeats ⟨[("seats", seedRows), ("_cf_KV", [])]⟩ =
        (⟨[("seats", seedRows), ("_cf_KV", [])]⟩, none) := by
  refine ⟨?_, ?_⟩
  · decide
  · decide

/-- Claim C8 counterexample: a `POST /book-seat` whose body is not
parseable JSON does not get a 400 response — `await request.json()`
rejects and, with no try/catch in `fetch`, the exception propagates out
of the handler (modelled as `none`: no response at all). -/
theorem malformed_body_counterexample :
    (fetchImpl seedRows [] ⟨"POST", "/book-seat", none, none⟩).1 = none ∧
      ∀ r : Resp, (fetchImpl seedRows [] ⟨"POST", "/book-seat", none, none⟩).1 ≠ some r :=
  ⟨rfl, fun _ h => Option.noConfusion h⟩

/-- Claim C8 as amended: malformed bodies are not uniformly turned into
400s.  A body that is not parseable JSON makes the parse exception
propagate out of `fetch` (no response, no SQL executed, state
unchanged); a parseable body missing the `seatNumber` field does get
the 400 "Seat not available" response (the NULL binding matches no
seat), with the state unchanged. -/
theorem malformed_body_handling :
    (∀ (seats : List Row) (wss : List WS) (upg : Option String),
        fetchImpl seats wss ⟨"POST", "/book-seat", upg, none⟩ = (none, seats, []))
    ∧ (∀ (seats : List Row) (wss : List WS) (upg : Option String) (nm : Option String),
        fetchImpl seats wss ⟨"POST", "/book-seat", upg, some ⟨none, nm⟩⟩ =
          (some ⟨400, "Seat not available", none⟩, seats, [Ev.selectOccupant none])) := by
  refine ⟨fun seats wss upg => rfl, fun seats wss upg nm => ?_⟩
  show assignSeat seats wss none nm = _
  exact assignSeat_fail wss nm (Or.inl (selectOccupant_null seats))

end SeatBooking
